import Mathlib

/-!
Shallow embedding of the registration workflow of
django-inspectional-registration (`registration/models.py`).

The persisted state of a `RegistrationProfile` is its `_status` column
(one of `untreated`, `accepted`, `rejected`) and its nullable
`activation_key` column.  The paired Django `User` account contributes
`username`, `is_active`, `date_joined` and the password.  Time is
modelled as `Int` (a timestamp); the configured activation window
(`ACCOUNT_ACTIVATION_DAYS`, converted to a `timedelta`) is an `Int`
offset, and `datetime_now()` is passed in explicitly as `now`.
Randomness of key and password generation is made explicit through a
`seed : Nat` parameter.  ORM exceptions (`DoesNotExist`,
`MultipleObjectsReturned`) are modelled with `Except`.
-/

namespace Registration

/-- Persisted values of the `_status` column (`STATUS_LIST`). -/
inductive PStatus where
  | untreated
  | accepted
  | rejected
deriving DecidableEq, Repr

/-- Effective status values: the persisted ones plus the derived `expired`. -/
inductive EStatus where
  | untreated
  | accepted
  | rejected
  | expired
deriving DecidableEq, Repr

/-- Inclusion of persisted status values into effective status values. -/
def PStatus.toEff : PStatus → EStatus
  | .untreated => .untreated
  | .accepted => .accepted
  | .rejected => .rejected

/-- The paired Django `User` account: `password = none` models an unusable
password (`set_unusable_password`). -/
structure UserAccount where
  username : String
  email : String
  is_active : Bool
  date_joined : Int
  password : Option String
deriving DecidableEq, Repr

/-- A `RegistrationProfile` row: the persisted `_status` column and the
nullable `activation_key` column. -/
structure RegistrationProfile where
  _status : PStatus
  activation_key : Option String
deriving DecidableEq, Repr

/-- Python truthiness of the nullable `activation_key` field:
`None` and the empty string are falsy. -/
def keyFalsy : Option String → Bool
  | none => true
  | some s => s = ""

/-- Python `password or fallback` on an optional string: the fallback is
used when the supplied value is `None` or the empty string. -/
def strOr (a : Option String) (fallback : String) : String :=
  match a with
  | none => fallback
  | some s => if s = "" then fallback else s

/-- Modelled from the spec: `generate_activation_key` lives in
`registration/utils.py`, which is not among the sources.  The spec calls
it an opaque random token generated from the username; the randomness is
made explicit by the `seed` parameter.  It always returns a non-null,
nonempty string. -/
def generate_activation_key (seed : Nat) (username : String) : String :=
  "key-" ++ toString seed ++ "-" ++ username

/-- Modelled from the spec: `generate_random_password` lives in
`registration/utils.py`, which is not among the sources.  The spec calls
it a random password of the configured default length
(`REGISTRATION_DEFAULT_PASSWORD_LENGTH`); the randomness is made
explicit by the `seed` parameter. -/
def generate_random_password (length : Nat) (seed : Nat) : String :=
  String.mk (List.replicate length (Char.ofNat (97 + seed % 26)))

/-- `RegistrationProfile.activation_key_expired` for a profile whose user
row is present: `False` when the persisted status is not `accepted`,
otherwise whether `date_joined + window ≤ now`. -/
def activation_key_expired (p : RegistrationProfile) (u : UserAccount)
    (now window : Int) : Bool :=
  if p._status ≠ PStatus.accepted then false
  else decide (u.date_joined + window ≤ now)

/-- `RegistrationProfile._get_status`: the effective status, which is
`expired` when the key has expired and the persisted status otherwise. -/
def _get_status (p : RegistrationProfile) (u : UserAccount)
    (now window : Int) : EStatus :=
  if activation_key_expired p u now window then EStatus.expired
  else p._status.toEff

/-- `RegistrationProfile._set_status`: stores the new status value; a
transition to `accepted` with a falsy key generates an activation key
and stamps the user's `date_joined` to now, and a transition away from
`accepted` with a truthy key clears the key. -/
def _set_status (p : RegistrationProfile) (u : UserAccount) (value : PStatus)
    (now : Int) (seed : Nat) : RegistrationProfile × UserAccount :=
  let p1 : RegistrationProfile := { p with _status := value }
  if value = PStatus.accepted ∧ keyFalsy p1.activation_key then
    ({ p1 with activation_key := some (generate_activation_key seed u.username) },
     { u with date_joined := now })
  else if value ≠ PStatus.accepted ∧ ¬ keyFalsy p1.activation_key then
    ({ p1 with activation_key := none }, u)
  else
    (p1, u)

/-- `RegistrationManager.accept_registration` acting on one profile and
its user.  Returns the Python return value (`profile.user` on success,
`None` otherwise) together with the updated profile and user rows. -/
def accept_registration (p : RegistrationProfile) (u : UserAccount)
    (force : Bool) (now window : Int) (seed : Nat) :
    Option UserAccount × RegistrationProfile × UserAccount :=
  if force = true ∨ _get_status p u now window = EStatus.untreated ∨
      _get_status p u now window = EStatus.rejected then
    let p0 : RegistrationProfile :=
      if force then { p with activation_key := none } else p
    let pu := _set_status p0 u PStatus.accepted now seed
    (some pu.2, pu.1, pu.2)
  else
    (none, p, u)

/-- `RegistrationManager.reject_registration` acting on one profile and
its user. -/
def reject_registration (p : RegistrationProfile) (u : UserAccount)
    (now window : Int) (seed : Nat) :
    Option UserAccount × RegistrationProfile × UserAccount :=
  if _get_status p u now window = EStatus.untreated then
    let pu := _set_status p u PStatus.rejected now seed
    (some pu.2, pu.1, pu.2)
  else
    (none, p, u)

/-- ORM exceptions that the manager code can let escape. -/
inductive DbError where
  | objectDoesNotExist
  | multipleObjectsReturned
deriving DecidableEq, Repr

/-- A database row pair: a profile together with its user row, which may
be missing (an orphaned profile). -/
abbrev Entry := RegistrationProfile × Option UserAccount

/-- The database contents relevant to the manager: all profile rows with
their (possibly missing) user rows. -/
structure RegState where
  profiles : List Entry
deriving DecidableEq, Repr

/-- `RegistrationManager.register`: creates an inactive user with an
unusable password and a paired profile with the default field values
(`_status = untreated`, `activation_key = NULL`). -/
def register (st : RegState) (username email : String) (now : Int) :
    UserAccount × RegState :=
  let new_user : UserAccount :=
    { username := username, email := email, is_active := false,
      date_joined := now, password := none }
  let profile : RegistrationProfile :=
    { _status := PStatus.untreated, activation_key := none }
  (new_user, ⟨st.profiles ++ [(profile, some new_user)]⟩)

/-- The filter of `self.get(_status='accepted', activation_key=activation_key)`. -/
def isActivationMatch (key : String) (e : Entry) : Bool :=
  decide (e.1._status = PStatus.accepted ∧ e.1.activation_key = some key)

/-- `RegistrationManager.activate_user`: looks the profile up by accepted
status and matching key (`DoesNotExist` is caught and yields `None`,
several matches raise `MultipleObjectsReturned`); a missing user row
raises `ObjectDoesNotExist` from the expiry check.  On a non-expired key
it sets the password (the supplied one, or a generated one when the
supplied one is falsy), activates and saves the user, deletes the
profile unless `no_profile_delete`, and returns
`(user, password, is_generated)`; on an expired key it returns `None`. -/
def activate_user (st : RegState) (activation_key : String)
    (password : Option String) (pwlen seed : Nat) (now window : Int)
    (no_profile_delete : Bool) :
    Except DbError (Option (UserAccount × String × Bool) × RegState) :=
  match st.profiles.filter (isActivationMatch activation_key) with
  | [] => .ok (none, st)
  | [(_, ou)] =>
    match ou with
    | none => .error DbError.objectDoesNotExist
    | some u =>
      if u.date_joined + window ≤ now then
        .ok (none, st)
      else
        let is_generated := password.isNone
        let pw := strOr password (generate_random_password pwlen seed)
        let u' : UserAccount := { u with password := some pw, is_active := true }
        let saved : List Entry := st.profiles.map
          (fun e => if isActivationMatch activation_key e then (e.1, some u') else e)
        let remaining : List Entry :=
          if no_profile_delete then saved
          else saved.filter (fun e => ¬ isActivationMatch activation_key e)
        .ok (some (u', pw, is_generated), ⟨remaining⟩)
  | _ :: _ :: _ => .error DbError.multipleObjectsReturned

/-- `activation_key_expired` as called on a row whose user may be
missing: a profile that is not `accepted` answers `false` without
touching the user; an `accepted` profile with a missing user row raises
`ObjectDoesNotExist` when reading `self.user.date_joined`. -/
def activation_key_expired_row (p : RegistrationProfile)
    (ou : Option UserAccount) (now window : Int) : Except DbError Bool :=
  if p._status ≠ PStatus.accepted then .ok false
  else
    match ou with
    | none => .error DbError.objectDoesNotExist
    | some u => .ok (decide (u.date_joined + window ≤ now))

/-- The loop body of `RegistrationManager.delete_expired_users` over the
list of rows: an expired row with an inactive user has user and profile
deleted; the `except ObjectDoesNotExist` branch deletes the profile
alone.  An uncaught exception aborts (and rolls back) the whole sweep. -/
def delete_expired_step (now window : Int) :
    List Entry → Except DbError (List Entry)
  | [] => .ok []
  | e :: rest => do
    let expired ← activation_key_expired_row e.1 e.2 now window
    let rest' ← delete_expired_step now window rest
    if expired then
      match e.2 with
      | some u => if u.is_active then pure (e :: rest') else pure rest'
      | none => pure rest'
    else
      pure (e :: rest')

/-- `RegistrationManager.delete_expired_users`. -/
def delete_expired_users (st : RegState) (now window : Int) :
    Except DbError RegState := do
  let l ← delete_expired_step now window st.profiles
  pure ⟨l⟩

/-- The key-presence invariant of the spec: the activation key is
non-absent exactly on persisted status `accepted`. -/
def KeyInv (p : RegistrationProfile) : Prop :=
  p.activation_key.isSome ↔ p._status = PStatus.accepted

instance (p : RegistrationProfile) : Decidable (KeyInv p) := by
  unfold KeyInv; infer_instance

/-- The value computed by the success branch of `activate_user`: the
activated and saved user, the effective password, the `is_generated`
flag, and the resulting database rows. -/
def activationSuccess (st : RegState) (key : String) (password : Option String)
    (pwlen seed : Nat) (no_profile_delete : Bool) (u : UserAccount) :
    (UserAccount × String × Bool) × RegState :=
  let pwd := strOr password (generate_random_password pwlen seed)
  let u' : UserAccount := { u with password := some pwd, is_active := true }
  let saved : List Entry := st.profiles.map
    (fun e => if isActivationMatch key e then (e.1, some u') else e)
  ((u', pwd, password.isNone),
   ⟨if no_profile_delete then saved
     else saved.filter (fun e => ¬ isActivationMatch key e)⟩)

/-- A sample inactive user row. -/
def sampleUser : UserAccount :=
  { username := "alice", email := "a@x.com", is_active := false,
    date_joined := 0, password := none }

/-- A sample accepted profile carrying key "k". -/
def sampleAccepted : RegistrationProfile :=
  { _status := PStatus.accepted, activation_key := some "k" }

/-- A sample untreated profile with no key. -/
def sampleUntreated : RegistrationProfile :=
  { _status := PStatus.untreated, activation_key := none }

/-- A sample database holding one accepted profile with its user. -/
def sampleState : RegState := ⟨[(sampleAccepted, some sampleUser)]⟩

end Registration

namespace Registration

/-! ### Helper lemmas -/

theorem toEff_ne_expired (s : PStatus) : s.toEff ≠ EStatus.expired := by
  cases s <;> simp [PStatus.toEff]

theorem toEff_inj {s t : PStatus} (h : s.toEff = t.toEff) : s = t := by
  cases s <;> cases t <;> simp [PStatus.toEff] at h ⊢

theorem toEff_untreated_iff (s : PStatus) :
    s.toEff = EStatus.untreated ↔ s = PStatus.untreated := by
  cases s <;> simp [PStatus.toEff]

theorem toEff_rejected_iff (s : PStatus) :
    s.toEff = EStatus.rejected ↔ s = PStatus.rejected := by
  cases s <;> simp [PStatus.toEff]

theorem expired_imp_accepted {p : RegistrationProfile} {u : UserAccount}
    {now window : Int} (h : activation_key_expired p u now window = true) :
    p._status = PStatus.accepted := by
  unfold activation_key_expired at h
  by_cases hs : p._status = PStatus.accepted
  · exact hs
  · simp [hs] at h

theorem get_status_untreated_iff (p : RegistrationProfile) (u : UserAccount)
    (now window : Int) :
    _get_status p u now window = EStatus.untreated ↔
      p._status = PStatus.untreated := by
  unfold _get_status
  by_cases hx : activation_key_expired p u now window
  · have ha := expired_imp_accepted hx
    simp [hx, ha]
  · simp [hx, toEff_untreated_iff]

theorem get_status_rejected_iff (p : RegistrationProfile) (u : UserAccount)
    (now window : Int) :
    _get_status p u now window = EStatus.rejected ↔
      p._status = PStatus.rejected := by
  unfold _get_status
  by_cases hx : activation_key_expired p u now window
  · have ha := expired_imp_accepted hx
    simp [hx, ha]
  · simp [hx, toEff_rejected_iff]

theorem keyFalsy_of_none : keyFalsy none = true := rfl

theorem isSome_of_not_keyFalsy {k : Option String} (h : ¬ keyFalsy k) :
    k.isSome := by
  cases k <;> simp [keyFalsy] at h ⊢

end Registration

namespace Registration

/-! ### Sample rows for instantiating hypothesis-carrying theorems -/

/-! ### Claim C3 -/

/-- C3: the effective status (`_get_status`) is `expired` exactly when
the persisted status is `accepted` and `date_joined + window ≤ now`; in
every other case the effective status equals the persisted status, and
`activation_key_expired` is `false` whenever the persisted status is not
`accepted`. -/
theorem c3_effective_status (p : RegistrationProfile) (u : UserAccount)
    (now window : Int) :
    (_get_status p u now window = EStatus.expired ↔
      p._status = PStatus.accepted ∧ u.date_joined + window ≤ now)
  ∧ (_get_status p u now window ≠ EStatus.expired →
      _get_status p u now window = p._status.toEff)
  ∧ (p._status ≠ PStatus.accepted →
      activation_key_expired p u now window = false) := by
  unfold _get_status activation_key_expired
  by_cases h : p._status = PStatus.accepted
  · by_cases h2 : u.date_joined + window ≤ now <;>
      simp [h, h2, toEff_ne_expired]
  · simp [h, toEff_ne_expired]

/-- Witness for C3 at a concrete accepted profile past its window. -/
theorem c3_effective_status_witness :
    _get_status sampleAccepted sampleUser 20 10 = EStatus.expired :=
  (c3_effective_status sampleAccepted sampleUser 20 10).1.mpr (by decide)

/-! ### Claim C8 -/

/-- C8 counterexample: `_set_status` to `accepted` on a profile whose
activation key is already present keeps the key unchanged and does NOT
stamp the paired account's join time to now (it stays 0 although now is
5), contradicting the claim that every transition to `accepted` stamps
the join time. -/
theorem c8_stamp_counterexample :
    (_set_status ⟨PStatus.untreated, some "k"⟩ sampleUser
        PStatus.accepted 5 0).2.date_joined ≠ 5
  ∧ (_set_status ⟨PStatus.untreated, some "k"⟩ sampleUser
        PStatus.accepted 5 0).1.activation_key = some "k" := by
  decide

/-- C8 (amended): a transition to `accepted` generates a new activation
key only when the existing key is falsy (absent or empty), and exactly
in that case stamps the account's join time to now; a present key is
kept unchanged and then the user row, join time included, is untouched. -/
theorem c8_accept_transition (p : RegistrationProfile) (u : UserAccount)
    (now : Int) (seed : Nat) :
    (keyFalsy p.activation_key = true →
      _set_status p u PStatus.accepted now seed =
        ({ _status := PStatus.accepted,
           activation_key := some (generate_activation_key seed u.username) },
         { u with date_joined := now }))
  ∧ (keyFalsy p.activation_key = false →
      _set_status p u PStatus.accepted now seed =
        ({ p with _status := PStatus.accepted }, u)) := by
  unfold _set_status
  by_cases h : keyFalsy p.activation_key <;> simp [h]

/-- Witness for C8 (amended) at a concrete keyless profile. -/
theorem c8_accept_transition_witness :
    _set_status sampleUntreated sampleUser PStatus.accepted 7 2 =
      ({ _status := PStatus.accepted,
         activation_key := some (generate_activation_key 2 sampleUser.username) },
       { sampleUser with date_joined := 7 }) :=
  (c8_accept_transition sampleUntreated sampleUser 7 2).1 (by decide)

/-! ### Claim C7 -/

/-- C7: rejection succeeds exactly on persisted status `untreated` (the
profile then has persisted status `rejected`, the returned value is the
user, and a profile that carried no key still carries none); on every
other persisted status it is a no-op returning `None` with profile and
user unchanged. -/
theorem c7_reject_registration (p : RegistrationProfile) (u : UserAccount)
    (now window : Int) (seed : Nat) :
    (p._status = PStatus.untreated →
      (reject_registration p u now window seed).1 = some u ∧
      (reject_registration p u now window seed).2.1._status = PStatus.rejected ∧
      (reject_registration p u now window seed).2.2 = u ∧
      (p.activation_key = none →
        (reject_registration p u now window seed).2.1.activation_key = none))
  ∧ (p._status ≠ PStatus.untreated →
      reject_registration p u now window seed = (none, p, u)) := by
  constructor
  · intro h
    have hg : _get_status p u now window = EStatus.untreated :=
      (get_status_untreated_iff p u now window).mpr h
    unfold reject_registration
    simp only [hg, if_pos]
    unfold _set_status
    by_cases hk : keyFalsy p.activation_key <;> simp [hk]
  · intro h
    have hg : _get_status p u now window ≠ EStatus.untreated := by
      simp [get_status_untreated_iff, h]
    unfold reject_registration
    simp [hg]

/-- Witness for C7 at a concrete untreated profile. -/
theorem c7_reject_registration_witness :
    (reject_registration sampleUntreated sampleUser 0 10 0).2.1._status =
      PStatus.rejected :=
  ((c7_reject_registration sampleUntreated sampleUser 0 10 0).1 (by decide)).2.1

end Registration

namespace Registration

/-- Case analysis of `_set_status` for a transition to `accepted`. -/
theorem set_status_accepted_eq (p : RegistrationProfile) (u : UserAccount)
    (now : Int) (seed : Nat) :
    _set_status p u PStatus.accepted now seed =
      if keyFalsy p.activation_key then
        ({ _status := PStatus.accepted,
           activation_key := some (generate_activation_key seed u.username) },
         { u with date_joined := now })
      else ({ p with _status := PStatus.accepted }, u) := by
  unfold _set_status
  by_cases h : keyFalsy p.activation_key <;> simp [h]

/-! ### Claim C2 -/

/-- C2: without force, acceptance succeeds exactly when the persisted
status is `untreated` or `rejected`; whenever it succeeds (also under
force) the persisted status becomes `accepted`, the activation key is
non-absent and the updated user is returned; under force the key is
exactly the freshly generated one (any existing key was cleared first);
on an already accepted profile without force the call is a no-op
returning `None` with profile and user unchanged. -/
theorem c2_accept_registration (p : RegistrationProfile) (u : UserAccount)
    (force : Bool) (now window : Int) (seed : Nat) :
    (force = false →
      ((accept_registration p u force now window seed).1 ≠ none ↔
        p._status = PStatus.untreated ∨ p._status = PStatus.rejected))
  ∧ ((force = true ∨ p._status = PStatus.untreated ∨
        p._status = PStatus.rejected) →
      (accept_registration p u force now window seed).2.1._status =
          PStatus.accepted ∧
      (accept_registration p u force now window seed).2.1.activation_key.isSome ∧
      (accept_registration p u force now window seed).1 =
        some (accept_registration p u force now window seed).2.2)
  ∧ (force = true →
      (accept_registration p u force now window seed).2.1.activation_key =
        some (generate_activation_key seed u.username))
  ∧ (force = false → p._status = PStatus.accepted →
      accept_registration p u force now window seed = (none, p, u)) := by
  refine ⟨?_, ?_, ?_, ?_⟩
  · intro hf
    subst hf
    by_cases hs : p._status = PStatus.untreated ∨ p._status = PStatus.rejected
    · simp [accept_registration, get_status_untreated_iff,
        get_status_rejected_iff, hs]
    · have hu : p._status ≠ PStatus.untreated := fun h => hs (Or.inl h)
      have hr : p._status ≠ PStatus.rejected := fun h => hs (Or.inr h)
      simp [accept_registration, get_status_untreated_iff,
        get_status_rejected_iff, hu, hr]
  · intro hg
    by_cases hf : force = true
    · simp [accept_registration, hf, set_status_accepted_eq, keyFalsy]
    · have hs : p._status = PStatus.untreated ∨ p._status = PStatus.rejected := by
        rcases hg with h | h | h
        · exact absurd h hf
        · exact Or.inl h
        · exact Or.inr h
      simp only [accept_registration, get_status_untreated_iff,
        get_status_rejected_iff, hf]
      rw [if_pos (Or.inr hs)]
      simp only [Bool.false_eq_true, if_false, set_status_accepted_eq]
      by_cases hk : keyFalsy p.activation_key <;>
        simp [hk, isSome_of_not_keyFalsy]
  · intro hf
    simp [accept_registration, hf, set_status_accepted_eq, keyFalsy]
  · intro hf ha
    have hu : p._status ≠ PStatus.untreated := by simp [ha]
    have hr : p._status ≠ PStatus.rejected := by simp [ha]
    simp [accept_registration, get_status_untreated_iff,
      get_status_rejected_iff, hu, hr, hf]

/-- Witness for C2 at a concrete untreated profile. -/
theorem c2_accept_registration_witness :
    (accept_registration sampleUntreated sampleUser false 5 10 3).2.1._status =
      PStatus.accepted :=
  ((c2_accept_registration sampleUntreated sampleUser false 5 10 3).2.1
    (by decide)).1

end Registration

namespace Registration

/-- Case analysis of `_set_status` for a transition to `rejected`. -/
theorem set_status_rejected_eq (p : RegistrationProfile) (u : UserAccount)
    (now : Int) (seed : Nat) :
    _set_status p u PStatus.rejected now seed =
      ({ p with
          _status := PStatus.rejected,
          activation_key :=
            if keyFalsy p.activation_key then p.activation_key else none }, u) := by
  unfold _set_status
  by_cases h : keyFalsy p.activation_key <;> simp [h]

/-- `accept_registration` with its guard restated on the persisted status. -/
theorem accept_registration_eq (p : RegistrationProfile) (u : UserAccount)
    (force : Bool) (now window : Int) (seed : Nat) :
    accept_registration p u force now window seed =
      if force = true ∨ p._status = PStatus.untreated ∨
          p._status = PStatus.rejected then
        (let p0 : RegistrationProfile :=
          if force then { p with activation_key := none } else p
         let pu := _set_status p0 u PStatus.accepted now seed
         (some pu.2, pu.1, pu.2))
      else (none, p, u) := by
  simp only [accept_registration, get_status_untreated_iff,
    get_status_rejected_iff]

/-- `reject_registration` with its guard restated on the persisted status. -/
theorem reject_registration_eq (p : RegistrationProfile) (u : UserAccount)
    (now window : Int) (seed : Nat) :
    reject_registration p u now window seed =
      if p._status = PStatus.untreated then
        (some u,
         { p with
            _status := PStatus.rejected,
            activation_key :=
              if keyFalsy p.activation_key then p.activation_key else none },
         u)
      else (none, p, u) := by
  simp only [reject_registration, get_status_untreated_iff,
    set_status_rejected_eq]

/-- On a successful (`ok`) outcome, `activate_user` either leaves the
database untouched or replaces the matched row's user and (unless
`no_profile_delete`) filters the matched rows out. -/
theorem activate_user_ok_shape {st : RegState} {key : String}
    {pw : Option String} {pwlen seed : Nat} {now window : Int} {npd : Bool}
    {res : Option (UserAccount × String × Bool) × RegState}
    (h : activate_user st key pw pwlen seed now window npd = Except.ok res) :
    res.2 = st ∨
    ∃ u' : UserAccount,
      res.2.profiles = (if npd then
          st.profiles.map
            (fun e => if isActivationMatch key e then (e.1, some u') else e)
        else
          (st.profiles.map
            (fun e => if isActivationMatch key e then (e.1, some u') else e)).filter
            (fun e => ¬ isActivationMatch key e)) := by
  unfold activate_user at h
  split at h
  · cases h
    exact Or.inl rfl
  · split at h
    · cases h
    · split at h
      · cases h
        exact Or.inl rfl
      · cases h
        exact Or.inr ⟨_, rfl⟩
  · cases h

end Registration

namespace Registration

/-! ### Claim C1 -/

/-- C1: the invariant "activation key non-absent iff persisted status is
`accepted`" is established by `register` for the new profile and is
preserved on every profile row by `accept_registration`,
`reject_registration` and `activate_user`. -/
theorem c1_key_invariant :
    (∀ (st : RegState) (username email : String) (now : Int),
      (∀ e ∈ st.profiles, KeyInv e.1) →
      ∀ e ∈ (register st username email now).2.profiles, KeyInv e.1)
  ∧ (∀ (p : RegistrationProfile) (u : UserAccount) (force : Bool)
      (now window : Int) (seed : Nat), KeyInv p →
      KeyInv (accept_registration p u force now window seed).2.1)
  ∧ (∀ (p : RegistrationProfile) (u : UserAccount)
      (now window : Int) (seed : Nat), KeyInv p →
      KeyInv (reject_registration p u now window seed).2.1)
  ∧ (∀ (st : RegState) (key : String) (pw : Option String) (pwlen seed : Nat)
      (now window : Int) (npd : Bool)
      (res : Option (UserAccount × String × Bool) × RegState),
      (∀ e ∈ st.profiles, KeyInv e.1) →
      activate_user st key pw pwlen seed now window npd = Except.ok res →
      ∀ e ∈ res.2.profiles, KeyInv e.1) := by
  refine ⟨?_, ?_, ?_, ?_⟩
  · intro st username email now h e he
    simp only [register, RegState.mk.injEq, List.mem_append,
      List.mem_singleton] at he
    rcases he with he | he
    · exact h e he
    · subst he
      simp [KeyInv]
  · intro p u force now window seed hK
    rw [accept_registration_eq]
    by_cases hg : force = true ∨ p._status = PStatus.untreated ∨
        p._status = PStatus.rejected
    · rw [if_pos hg]
      simp only [set_status_accepted_eq]
      by_cases hf : force = true
      · simp [hf, keyFalsy, KeyInv]
      · simp only [hf, Bool.false_eq_true, if_false]
        by_cases hk : keyFalsy p.activation_key
        · simp [hk, KeyInv]
        · simp only [hk, Bool.false_eq_true, if_false]
          exact ⟨fun _ => rfl, fun _ => isSome_of_not_keyFalsy (by simp [hk])⟩
    · rw [if_neg hg]
      exact hK
  · intro p u now window seed hK
    rw [reject_registration_eq]
    by_cases hs : p._status = PStatus.untreated
    · rw [if_pos hs]
      have hnone : p.activation_key = none := by
        rcases hk : p.activation_key with _ | s
        · rfl
        · exfalso
          have : p._status = PStatus.accepted := hK.mp (by simp [hk])
          rw [hs] at this
          exact PStatus.noConfusion this
      simp [KeyInv, hnone, keyFalsy]
    · rw [if_neg hs]
      exact hK
  · intro st key pw pwlen seed now window npd res h hok e he
    rcases activate_user_ok_shape hok with heq | ⟨u', heq⟩
    · rw [heq] at he
      exact h e he
    · rw [heq] at he
      by_cases hnpd : npd = true
    
      · rw [hnpd] at he
        simp only [if_true] at he
        rcases List.mem_map.mp he with ⟨e', he', hee⟩
        by_cases hm : isActivationMatch key e'
        · rw [if_pos hm] at hee
          subst hee
          exact h e' he'
        · rw [if_neg hm] at hee
          subst hee
          exact h e' he'
      · simp only [hnpd, Bool.false_eq_true, if_false] at he
        have he2 := List.mem_filter.mp he
        rcases List.mem_map.mp he2.1 with ⟨e', he', hee⟩
        by_cases hm : isActivationMatch key e'
        · rw [if_pos hm] at hee
          subst hee
          exact h e' he'
        · rw [if_neg hm] at hee
          subst hee
          exact h e' he'

/-- Witness for C1: the invariant holds after accepting a fresh
untreated profile. -/
theorem c1_key_invariant_witness :
    KeyInv (accept_registration sampleUntreated sampleUser false 5 10 3).2.1 :=
  c1_key_invariant.2.1 sampleUntreated sampleUser false 5 10 3 (by decide)

end Registration

namespace Registration

/-- Evaluation of `activate_user` when the lookup finds exactly one
matching row whose user is present and whose key has not expired. -/
theorem activate_user_found {st : RegState} {key : String}
    {pw : Option String} {pwlen seed : Nat} {now window : Int} {npd : Bool}
    {p : RegistrationProfile} {u : UserAccount}
    (hm : st.profiles.filter (isActivationMatch key) = [(p, some u)])
    (hexp : ¬ u.date_joined + window ≤ now) :
    activate_user st key pw pwlen seed now window npd =
      Except.ok (some (activationSuccess st key pw pwlen seed npd u).1,
        (activationSuccess st key pw pwlen seed npd u).2) := by
  unfold activate_user activationSuccess
  rw [hm]
  simp [hexp]

/-- Filtering for a match inside rows from which every match was
filtered out yields nothing. -/
theorem filter_match_of_filter_not (key : String) (l : List Entry) :
    (l.filter (fun e => ¬ isActivationMatch key e)).filter
      (isActivationMatch key) = [] := by
  induction l with
  | nil => rfl
  | cons a t ih =>
    by_cases hma : isActivationMatch key a
    · simp [hma, ih]
    · simp [hma, ih]

/-! ### Claim C5 -/

/-- C5: `activate_user` returns `None` without raising and without any
mutation (the database is returned unchanged) whenever no accepted
profile matches the key, or the unique accepted match has
`date_joined + window ≤ now`. -/
theorem c5_activate_failure (st : RegState) (key : String)
    (pw : Option String) (pwlen seed : Nat) (now window : Int) (npd : Bool) :
    (st.profiles.filter (isActivationMatch key) = [] ∨
      ∃ p u, st.profiles.filter (isActivationMatch key) = [(p, some u)] ∧
        u.date_joined + window ≤ now) →
    activate_user st key pw pwlen seed now window npd =
      Except.ok (none, st) := by
  intro h
  unfold activate_user
  rcases h with h | ⟨p, u, h, hexp⟩
  · rw [h]
  · rw [h]
    simp [hexp]

/-- Witness for C5: activating an expired accepted profile fails. -/
theorem c5_activate_failure_witness :
    activate_user sampleState "k" none 8 0 20 10 false =
      Except.ok (none, sampleState) :=
  c5_activate_failure sampleState "k" none 8 0 20 10 false
    (Or.inr ⟨sampleAccepted, sampleUser, rfl, by decide⟩)

end Registration

namespace Registration

/-! ### Claim C4 -/

/-- C4 counterexample: activating a valid, non-expired key with the
supplied password `""` does NOT set the supplied password: the stored
and returned password is a freshly generated non-empty one, while the
generated-flag is `false`, so the flag does not record that the
password was generated. -/
theorem c4_empty_password_counterexample :
    activate_user sampleState "k" (some "") 8 0 5 10 false =
      Except.ok (some
        ({ sampleUser with
            password := some (generate_random_password 8 0),
            is_active := true },
         generate_random_password 8 0, false), ⟨[]⟩)
  ∧ generate_random_password 8 0 ≠ "" := by
  constructor
  · rfl
  · decide

/-- C4 (amended): for every key with a unique accepted match whose user
row is present and whose key has not expired, `activate_user` activates
the account, stores and returns the supplied password when it is
non-empty and a freshly generated one when the supplied password is
`None` or empty, reports the generated-flag true exactly when the
supplied password was `None`, deletes the matched profile, and returns
the account, password and flag. -/
theorem c4_activate_success (st : RegState) (key : String)
    (pw : Option String) (pwlen seed : Nat) (now window : Int)
    (p : RegistrationProfile) (u : UserAccount)
    (hm : st.profiles.filter (isActivationMatch key) = [(p, some u)])
    (hexp : ¬ u.date_joined + window ≤ now) :
    activate_user st key pw pwlen seed now window false =
      Except.ok (some (activationSuccess st key pw pwlen seed false u).1,
        (activationSuccess st key pw pwlen seed false u).2)
  ∧ (activationSuccess st key pw pwlen seed false u).1.1.is_active = true
  ∧ (activationSuccess st key pw pwlen seed false u).1.1.password =
      some (activationSuccess st key pw pwlen seed false u).1.2.1
  ∧ (activationSuccess st key pw pwlen seed false u).1.2.2 = pw.isNone
  ∧ (∀ s, pw = some s → s ≠ "" →
      (activationSuccess st key pw pwlen seed false u).1.2.1 = s)
  ∧ (pw = none →
      (activationSuccess st key pw pwlen seed false u).1.2.1 =
        generate_random_password pwlen seed)
  ∧ (activationSuccess st key pw pwlen seed false u).2.profiles.filter
      (isActivationMatch key) = [] := by
  refine ⟨activate_user_found hm hexp, rfl, rfl, rfl, ?_, ?_, ?_⟩
  · intro s hs hne
    simp [activationSuccess, strOr, hs, hne]
  · intro hnone
    simp [activationSuccess, strOr, hnone]
  · simp only [activationSuccess]
    exact filter_match_of_filter_not key _

/-- Witness for C4 (amended) at a concrete fresh accepted profile. -/
theorem c4_activate_success_witness :
    activate_user sampleState "k" none 8 0 5 10 false =
      Except.ok (some (activationSuccess sampleState "k" none 8 0 false sampleUser).1,
        (activationSuccess sampleState "k" none 8 0 false sampleUser).2) :=
  (c4_activate_success sampleState "k" none 8 0 5 10 sampleAccepted sampleUser
    rfl (by decide)).1

end Registration

namespace Registration

/-! ### Claim C10 -/

/-- C10: supplying the empty-string password on a valid, non-expired key
stores a freshly generated random password on the account (the empty
string is falsy in the password-defaulting expression) yet reports a
generated-flag of `false`, because the flag only tests whether the
supplied password was `None`. -/
theorem c10_empty_password (st : RegState) (key : String)
    (pwlen seed : Nat) (now window : Int) (npd : Bool)
    (p : RegistrationProfile) (u : UserAccount)
    (hm : st.profiles.filter (isActivationMatch key) = [(p, some u)])
    (hexp : ¬ u.date_joined + window ≤ now) :
    activate_user st key (some "") pwlen seed now window npd =
      Except.ok (some
        ({ u with
            password := some (generate_random_password pwlen seed),
            is_active := true },
         generate_random_password pwlen seed, false),
        (activationSuccess st key (some "") pwlen seed npd u).2) := by
  rw [activate_user_found hm hexp]
  simp [activationSuccess, strOr]

/-- Witness for C10 at a concrete accepted profile inside its window. -/
theorem c10_empty_password_witness :
    activate_user sampleState "k" (some "") 8 0 5 10 false =
      Except.ok (some
        ({ sampleUser with
            password := some (generate_random_password 8 0),
            is_active := true },
         generate_random_password 8 0, false),
        (activationSuccess sampleState "k" (some "") 8 0 false sampleUser).2) :=
  c10_empty_password sampleState "k" 8 0 5 10 false sampleAccepted sampleUser
    rfl (by decide)

/-! ### Claim C6 -/

/-- C6: a successful activation with profile deletion enabled removes
the matched profile, so a second activation with the same key, with any
later parameters, finds no accepted profile and returns `None` with the
state unchanged. -/
theorem c6_second_activation_fails (st : RegState) (key : String)
    (pw pw2 : Option String) (pwlen seed pwlen2 seed2 : Nat)
    (now window now2 window2 : Int) (npd2 : Bool)
    (r : UserAccount × String × Bool) (st' : RegState)
    (h : activate_user st key pw pwlen seed now window false =
      Except.ok (some r, st')) :
    activate_user st' key pw2 pwlen2 seed2 now2 window2 npd2 =
      Except.ok (none, st') := by
  have hempty : st'.profiles.filter (isActivationMatch key) = [] := by
    unfold activate_user at h
    split at h
    · simp at h
    · split at h
      · simp at h
      · split at h
        · simp at h
        · simp only [Except.ok.injEq, Prod.mk.injEq] at h
          obtain ⟨-, h2⟩ := h
          rw [← h2]
          simp only [Bool.false_eq_true, if_false]
          exact filter_match_of_filter_not key _
    · simp at h
  unfold activate_user
  rw [hempty]

/-- Witness for C6: after a concrete successful activation the second
attempt with the same key fails. -/
theorem c6_second_activation_fails_witness :
    activate_user (⟨[]⟩ : RegState) "k" none 8 0 5 10 false =
      Except.ok (none, (⟨[]⟩ : RegState)) :=
  c6_second_activation_fails sampleState "k" none none 8 0 8 0 5 10 5 10 false
    ({ sampleUser with
        password := some (generate_random_password 8 0), is_active := true },
     generate_random_password 8 0, true) ⟨[]⟩ rfl

/-! ### Claim C9 -/

/-- C9: evaluation of `delete_expired_users` at the claim's inputs.  An
orphaned accepted profile makes the sweep raise `ObjectDoesNotExist`
from the expiry check (which sits before the `try`), so the defensive
deletion branch never runs; an orphaned non-accepted profile is kept
untouched rather than deleted.  A present expired-and-inactive pair is
deleted, while an expired-but-active pair and an unexpired pair are
kept untouched. -/
theorem c9_delete_expired_orphan :
    delete_expired_users ⟨[(⟨PStatus.accepted, some "k"⟩, none)]⟩ 50 10 =
      Except.error DbError.objectDoesNotExist
  ∧ delete_expired_users ⟨[(⟨PStatus.rejected, none⟩, none)]⟩ 50 10 =
      Except.ok ⟨[(⟨PStatus.rejected, none⟩, none)]⟩
  ∧ delete_expired_users ⟨[(sampleAccepted, some sampleUser)]⟩ 50 10 =
      Except.ok ⟨[]⟩
  ∧ delete_expired_users
      ⟨[(sampleAccepted, some { sampleUser with is_active := true })]⟩ 50 10 =
      Except.ok ⟨[(sampleAccepted, some { sampleUser with is_active := true })]⟩
  ∧ delete_expired_users ⟨[(sampleAccepted, some sampleUser)]⟩ 5 10 =
      Except.ok ⟨[(sampleAccepted, some sampleUser)]⟩ :=
  ⟨rfl, rfl, rfl, rfl, rfl⟩

end Registration

namespace Registration

/-- Characterization of the sweep body when every accepted profile has
its user row present: a row is kept unless it is expired with an
inactive user. -/
theorem delete_expired_step_eq (now window : Int) (l : List Entry)
    (h : ∀ e ∈ l, e.1._status = PStatus.accepted → e.2.isSome) :
    delete_expired_step now window l =
      Except.ok (l.filter (fun e =>
        match e.2 with
        | none => true
        | some u => !(decide (e.1._status = PStatus.accepted) &&
            decide (u.date_joined + window ≤ now) && !u.is_active))) := by
  induction l with
  | nil => rfl
  | cons e t ih =>
    have he := h e (List.mem_cons_self e t)
    have ht : ∀ x ∈ t, x.1._status = PStatus.accepted → x.2.isSome :=
      fun x hx => h x (List.mem_cons_of_mem e hx)
    have ih' := ih ht
    rcases e with ⟨p, ou⟩
    rcases ou with _ | u
    · have hp : ¬ p._status = PStatus.accepted := by
        intro hacc
        simpa using he hacc
      simp [delete_expired_step, activation_key_expired_row, hp, ih',
        Bind.bind, Except.bind, Pure.pure, Except.pure]
    · by_cases hacc : p._status = PStatus.accepted
      · by_cases hexp : u.date_joined + window ≤ now
        · by_cases hact : u.is_active = true <;>
            simp [delete_expired_step, activation_key_expired_row, hacc,
              hexp, hact, ih', Bind.bind, Except.bind, Pure.pure, Except.pure]
        · simp [delete_expired_step, activation_key_expired_row, hacc,
            hexp, ih', Bind.bind, Except.bind, Pure.pure, Except.pure]
      · simp [delete_expired_step, activation_key_expired_row, hacc, ih',
          Bind.bind, Except.bind, Pure.pure, Except.pure]

/-- The sweep on a database whose accepted profiles all have users:
exactly the expired-and-inactive pairs are removed. -/
theorem delete_expired_users_eq (st : RegState) (now window : Int)
    (h : ∀ e ∈ st.profiles, e.1._status = PStatus.accepted → e.2.isSome) :
    delete_expired_users st now window =
      Except.ok ⟨st.profiles.filter (fun e =>
        match e.2 with
        | none => true
        | some u => !(decide (e.1._status = PStatus.accepted) &&
            decide (u.date_joined + window ≤ now) && !u.is_active))⟩ := by
  unfold delete_expired_users
  rw [delete_expired_step_eq now window st.profiles h]
  rfl

end Registration
